import Mathlib

/-!
# Verification of the conversational intent-resolution pipeline

Shallow embedding of the AI side-panel repository's core pipeline:
intent classification, entity extraction, clarification merging,
response/action planning and action execution.

The underlying language-model completion call and the database client are
external collaborators: they are modelled as oracle inputs (the outcome of
the awaited call).  JavaScript's `x || default` idiom is modelled by the
`jsOr*` helpers below, with the JS falsiness rules (absent/null, `''`,
`0` and `false` are falsy; arrays are always truthy).  JSON payloads that
the code immediately casts to a TypeScript interface are modelled as
structures with optional fields (`none` = the key is absent or `null`),
and the outcome of `JSON.parse` on a completion's content is modelled as
`Option` of that structure (`none` = no JSON object found in the content,
or `JSON.parse` threw).
-/

namespace AiPanel

/-- The numeric literal `0.1`, in lowest terms (kept as an explicit
`Rat.mk'` so that the kernel can evaluate comparisons on it). -/
def q01 : ℚ := Rat.mk' 1 10 (by norm_num) (by norm_num)

/-- The numeric literal `0.5`, in lowest terms. -/
def q05 : ℚ := Rat.mk' 1 2 (by norm_num) (by norm_num)

/-- The numeric literal `0.8` (the auto-execution threshold), in lowest terms. -/
def q08 : ℚ := Rat.mk' 4 5 (by norm_num) (by norm_num)

/-- `q01` denotes one tenth. -/
theorem q01_eq : q01 = 1/10 := by
  unfold q01; rw [Rat.mk'_eq_divInt, Rat.divInt_eq_div]; norm_num

/-- `q05` denotes one half. -/
theorem q05_eq : q05 = 5/10 := by
  unfold q05; rw [Rat.mk'_eq_divInt, Rat.divInt_eq_div]; norm_num

/-- `q08` denotes eight tenths. -/
theorem q08_eq : q08 = 8/10 := by
  unfold q08; rw [Rat.mk'_eq_divInt, Rat.divInt_eq_div]; norm_num

/-- JS `s || d` for an optional string field: absent/null and `''` are falsy. -/
def jsOrStr : Option String → String → String
  | none, d => d
  | some s, d => if s = "" then d else s

/-- JS `q || d` for an optional numeric field: absent/null and `0` are falsy. -/
def jsOrNum : Option ℚ → ℚ → ℚ
  | none, d => d
  | some q, d => if q = 0 then d else q

/-- JS `b || d` for an optional boolean field: absent/null and `false` are falsy. -/
def jsOrBool : Option Bool → Bool → Bool
  | none, d => d
  | some b, d => b || d

/-- JS `l || d` for an optional array field: absent/null is falsy, any array
(including `[]`) is truthy. -/
def jsOrList {α : Type} : Option (List α) → List α → List α
  | none, d => d
  | some l, _ => l

/-- JS truthiness of an optional string value (`!x` is true exactly when
`x` is absent, `null` or the empty string). -/
def jsTruthyStr : Option String → Bool
  | none => false
  | some s => s ≠ ""

/-- Decidable equality for `Except`, used to evaluate the pipeline
functions on concrete inputs. -/
instance {ε α : Type} [DecidableEq ε] [DecidableEq α] : DecidableEq (Except ε α)
  | .ok a, .ok b =>
      if h : a = b then isTrue (by rw [h]) else isFalse (by simp [h])
  | .ok _, .error _ => isFalse (by simp)
  | .error _, .ok _ => isFalse (by simp)
  | .error a, .error b =>
      if h : a = b then isTrue (by rw [h]) else isFalse (by simp [h])

/-- Errors thrown through the `lib/ai` pipeline: `AIServiceError` instances
carry a message and a machine-readable code; every other thrown value is
`other` (with its `message` when it is an `Error`). -/
inductive JsError where
  | aiService (message : String) (code : String)
  | other (message : Option String)
deriving DecidableEq, Repr

/-- Outcome of one awaited `openai.chat.completions.create` call, after
reading `response.choices[0].message.content`:
`empty` models falsy content; `text parsed` models non-empty content,
with `parsed` the outcome of the regex-extract + `JSON.parse` step
(`none` = no JSON object in the content, or `JSON.parse` threw). -/
inductive CompletionContent (α : Type) where
  | empty
  | text (parsed : Option α)
deriving DecidableEq, Repr

/-! ## Classifier (`lib/ai/intent-classifier.ts`) -/

/-- `ExtractedEntity` from `intent-classifier.ts`. -/
structure ExtractedEntity where
  type : String
  value : String
  confidence : ℚ
  context : Option String := none
deriving DecidableEq, Repr

/-- The JSON object produced by `JSON.parse` on a classification completion,
as read by `parseClassificationResponse` (each field optional: the code
accesses them with `||` defaults). -/
structure ClassParsed where
  intent : Option String := none
  confidence : Option ℚ := none
  entities : Option (List ExtractedEntity) := none
  requiresClarification : Option Bool := none
  clarificationQuestions : Option (List String) := none
deriving DecidableEq, Repr

/-- `IntentClassification` from `intent-classifier.ts`.  The `intent` field
is kept as a string: the code assigns `parsed.intent || 'UNKNOWN'` without
validating membership in the `Intent` union. -/
structure IntentClassification where
  intent : String
  confidence : ℚ
  entities : List ExtractedEntity
  requiresClarification : Bool
  clarificationQuestions : List String
  rawResponse : Option ClassParsed := none
deriving DecidableEq, Repr

/-- `IntentClassifier.parseClassificationResponse`: on the success path the
fields are read with `||` defaults; the catch path (no JSON object found,
or `JSON.parse` threw) returns the fixed fallback classification. -/
def parseClassificationResponse : Option ClassParsed → IntentClassification
  | some parsed =>
      { intent := jsOrStr parsed.intent "UNKNOWN"
        confidence := jsOrNum parsed.confidence 0
        entities := jsOrList parsed.entities []
        requiresClarification := jsOrBool parsed.requiresClarification false
        clarificationQuestions := jsOrList parsed.clarificationQuestions []
        rawResponse := some parsed }
  | none =>
      { intent := "UNKNOWN"
        confidence := 0
        entities := []
        requiresClarification := true
        clarificationQuestions := ["I need more information to understand your request."]
        rawResponse := none }

/-- `IntentClassifier.classifyIntent`: falsy content throws
`AIServiceError('Empty response from AI', 'EMPTY_RESPONSE')`, which the
catch re-throws unchanged (`instanceof AIServiceError`); any other thrown
value is wrapped as
`AIServiceError('Failed to classify intent', 'CLASSIFICATION_ERROR')`.
A successful completion is parsed by `parseClassificationResponse`,
which never throws. -/
def classifyIntent (call : Except JsError (CompletionContent ClassParsed)) :
    Except JsError IntentClassification :=
  match call with
  | .ok .empty => .error (.aiService "Empty response from AI" "EMPTY_RESPONSE")
  | .ok (.text parsed) => .ok (parseClassificationResponse parsed)
  | .error (.aiService m c) => .error (.aiService m c)
  | .error (.other _) => .error (.aiService "Failed to classify intent" "CLASSIFICATION_ERROR")

/-! ## Extractor (`lib/ai/entity-extractor.ts`) -/

/-- `EntityExtractionResult` from `entity-extractor.ts`. -/
structure EntityExtractionResult where
  entities : List ExtractedEntity
  confidence : ℚ
  ambiguousEntities : List String
  missingRequiredFields : List String
deriving DecidableEq, Repr

/-- The JSON object produced by `JSON.parse` on an extraction completion,
as read by `parseExtractionResponse`. -/
structure ExtractParsed where
  entities : Option (List ExtractedEntity) := none
  confidence : Option ℚ := none
  ambiguousEntities : Option (List String) := none
  missingRequiredFields : Option (List String) := none
deriving DecidableEq, Repr

/-- `EntityExtractor.getRequiredFieldsForIntent`: the required-field lookup
table, with `requirements[intent] || []` for anything outside the table. -/
def getRequiredFieldsForIntent (intent : String) : List String :=
  if intent = "CREATE_PAYEE" then ["name"]
  else if intent = "UPDATE_PAYEE" then ["name", "id"]
  else if intent = "DELETE_PAYEE" then ["name", "id"]
  else if intent = "READ_PAYEE" then []
  else if intent = "CREATE_CATEGORY" then ["name"]
  else if intent = "UPDATE_CATEGORY" then ["name", "id"]
  else if intent = "DELETE_CATEGORY" then ["name", "id"]
  else if intent = "READ_CATEGORY" then []
  else if intent = "CLARIFY" then []
  else if intent = "HELP" then []
  else if intent = "UNKNOWN" then []
  else []

/-- `EntityExtractor.parseExtractionResponse`: the success path recomputes
`missingRequiredFields` as `requiredFields.filter(f => !extractedTypes.includes(f))`
where `extractedTypes = parsed.entities?.map(e => e.type) || []`; the catch
path returns the empty result with the full required-field set. -/
def parseExtractionResponse (content : Option ExtractParsed) (intent : String) :
    EntityExtractionResult :=
  match content with
  | some parsed =>
      let requiredFields := getRequiredFieldsForIntent intent
      let extractedTypes := jsOrList (parsed.entities.map (fun es => es.map (·.type))) []
      let missingFields := requiredFields.filter (fun field => ¬ extractedTypes.contains field)
      { entities := jsOrList parsed.entities []
        confidence := jsOrNum parsed.confidence 0
        ambiguousEntities := jsOrList parsed.ambiguousEntities []
        missingRequiredFields := missingFields }
  | none =>
      let requiredFields := getRequiredFieldsForIntent intent
      { entities := []
        confidence := 0
        ambiguousEntities := []
        missingRequiredFields := requiredFields }

/-- `EntityExtractor.extractEntities`: same throw/wrap structure as the
classifier, with code `EXTRACTION_ERROR`. -/
def extractEntities (call : Except JsError (CompletionContent ExtractParsed))
    (intent : String) : Except JsError EntityExtractionResult :=
  match call with
  | .ok .empty => .error (.aiService "Empty response from AI" "EMPTY_RESPONSE")
  | .ok (.text parsed) => .ok (parseExtractionResponse parsed intent)
  | .error (.aiService m c) => .error (.aiService m c)
  | .error (.other _) => .error (.aiService "Failed to extract entities" "EXTRACTION_ERROR")

/-! ## Planner (`lib/ai/response-generator.ts`) -/

/-- `SuggestedAction` from `response-generator.ts`; `data` is a
`Record<string, any>`, modelled as a string-keyed association list. -/
structure SuggestedAction where
  id : String
  type : String
  entity : String
  data : List (String × String)
  description : String
deriving DecidableEq, Repr

/-- `ResponseGenerationResult` from `response-generator.ts`. -/
structure ResponseGenerationResult where
  message : String
  actions : List SuggestedAction
  requiresConfirmation : Bool
  confidence : ℚ
deriving DecidableEq, Repr

/-- The JSON object produced by `JSON.parse` on a response-generation
completion, as read by `parseResponseGeneration`. -/
structure RGenParsed where
  message : Option String := none
  actions : Option (List SuggestedAction) := none
  requiresConfirmation : Option Bool := none
  confidence : Option ℚ := none
deriving DecidableEq, Repr

/-- `ResponseGenerator.parseResponseGeneration`: success path reads the
fields with `||` defaults (`0.5` for confidence); the catch path returns
the fixed low-confidence, confirmation-forced fallback. -/
def parseResponseGeneration : Option RGenParsed → ResponseGenerationResult
  | some parsed =>
      { message := jsOrStr parsed.message "I understand your request."
        actions := jsOrList parsed.actions []
        requiresConfirmation := jsOrBool parsed.requiresConfirmation false
        confidence := jsOrNum parsed.confidence q05 }
  | none =>
      { message := "I understand your request, but I need to process it further."
        actions := []
        requiresConfirmation := true
        confidence := q01 }

/-- `ResponseGenerator.generateResponse`: same throw/wrap structure as the
classifier, with code `GENERATION_ERROR`. -/
def generateResponse (call : Except JsError (CompletionContent RGenParsed)) :
    Except JsError ResponseGenerationResult :=
  match call with
  | .ok .empty => .error (.aiService "Empty response from AI" "EMPTY_RESPONSE")
  | .ok (.text parsed) => .ok (parseResponseGeneration parsed)
  | .error (.aiService m c) => .error (.aiService m c)
  | .error (.other _) => .error (.aiService "Failed to generate response" "GENERATION_ERROR")

/-! ## Action executor (`app/api/ai/chat/route.ts`, `executeActions`) -/

/-- A record (row) returned by the database client, kept abstract. -/
inductive DbVal where
  | row (fields : List (String × String))
  | rows (items : List (List (String × String)))
deriving DecidableEq, Repr

/-- One supabase query issued by a branch of `executeActions`'s dispatch. -/
inductive DbCall where
  | insert (table : String) (data : List (String × String))
  | update (table : String) (data : List (String × String)) (id : Option String)
  | delete (table : String) (id : Option String)
  | selectIlike (table : String) (query : String)
deriving DecidableEq, Repr

/-- Outcome of one awaited supabase call: a `{ data, error }` pair (the
error carrying its `message`), or a thrown exception (`some msg` when the
thrown value is an `Error` with that message, `none` otherwise). -/
inductive DbReply where
  | res (data : Option DbVal) (error : Option String)
  | thrown (msg : Option String)
deriving DecidableEq, Repr

/-- The `result` object assembled by one dispatch branch. -/
structure ExecResultPayload where
  success : Bool
  data : Option DbVal := none
  count : Option Nat := none
  error : Option String := none
deriving DecidableEq, Repr

/-- One entry pushed onto `results` by `executeActions`.  The `result`
field is `none` when the `let result` variable was never assigned
(a known `type` whose `entity` matches neither branch). -/
structure ExecutedActionEntry where
  actionId : String
  type : String
  entity : String
  result : Option ExecResultPayload
deriving DecidableEq, Repr

/-- `action.data.id` as passed to `.eq('id', action.data.id)`. -/
def dataId (data : List (String × String)) : Option String :=
  (data.find? (fun kv => kv.1 = "id")).map (·.2)

/-- `action.data.query || ''` as interpolated into the `ilike` pattern. -/
def dataQuery (data : List (String × String)) : String :=
  jsOrStr ((data.find? (fun kv => kv.1 = "query")).map (·.2)) ""

/-- `data?.length || 0` for the `count` field of a read result. -/
def lenOrZero : Option DbVal → Nat
  | some (.rows items) => items.length
  | _ => 0

/-- The body of the `switch (action.type)` in `executeActions`: returns the
value of the `result` variable, or propagates a thrown exception to the
surrounding `catch`. -/
def dispatchAction (db : DbCall → DbReply) (action : SuggestedAction) :
    Except (Option String) (Option ExecResultPayload) :=
  if action.type = "create" then
    if action.entity = "payee" then
      match db (.insert "payees" action.data) with
      | .thrown m => .error m
      | .res d e => .ok (some { success := e.isNone, data := d, error := e })
    else if action.entity = "category" then
      match db (.insert "categories" action.data) with
      | .thrown m => .error m
      | .res d e => .ok (some { success := e.isNone, data := d, error := e })
    else .ok none
  else if action.type = "update" then
    if action.entity = "payee" then
      match db (.update "payees" action.data (dataId action.data)) with
      | .thrown m => .error m
      | .res d e => .ok (some { success := e.isNone, data := d, error := e })
    else if action.entity = "category" then
      match db (.update "categories" action.data (dataId action.data)) with
      | .thrown m => .error m
      | .res d e => .ok (some { success := e.isNone, data := d, error := e })
    else .ok none
  else if action.type = "delete" then
    if action.entity = "payee" then
      match db (.delete "payees" (dataId action.data)) with
      | .thrown m => .error m
      | .res _ e => .ok (some { success := e.isNone, error := e })
    else if action.entity = "category" then
      match db (.delete "categories" (dataId action.data)) with
      | .thrown m => .error m
      | .res _ e => .ok (some { success := e.isNone, error := e })
    else .ok none
  else if action.type = "read" then
    if action.entity = "payee" then
      match db (.selectIlike "payees" (dataQuery action.data)) with
      | .thrown m => .error m
      | .res d e =>
          .ok (some { success := e.isNone, data := d, count := some (lenOrZero d), error := e })
    else if action.entity = "category" then
      match db (.selectIlike "categories" (dataQuery action.data)) with
      | .thrown m => .error m
      | .res d e =>
          .ok (some { success := e.isNone, data := d, count := some (lenOrZero d), error := e })
    else .ok none
  else
    .ok (some { success := false, error := some "Unknown action type" })

/-- One iteration of the `for (const action of actions)` loop: the `try`
block builds the entry from the dispatch; the `catch` block records a
failure entry with `error.message` (or `'Unknown error'` for non-`Error`
thrown values). -/
def executeOne (db : DbCall → DbReply) (action : SuggestedAction) : ExecutedActionEntry :=
  match dispatchAction db action with
  | .ok r =>
      { actionId := action.id, type := action.type, entity := action.entity, result := r }
  | .error m =>
      { actionId := action.id, type := action.type, entity := action.entity
        result := some { success := false, error := some (m.getD "Unknown error") } }

/-- `executeActions`: processes the batch in order, pushing one entry per
action; every iteration is wrapped in its own try/catch. -/
def executeActions (db : DbCall → DbReply) (actions : List SuggestedAction) :
    List ExecutedActionEntry :=
  actions.map (executeOne db)

/-! ## Chat route (`app/api/ai/chat/route.ts`, `POST`) -/

/-- The JSON bodies the chat route can answer with (status + shape). -/
inductive ChatResponse where
  | badRequest (error : String)
  | serverError (error : String) (code : Option String)
  | clarification (message : String) (classification : IntentClassification)
      (extraction : EntityExtractionResult)
  | response (message : String) (classification : IntentClassification)
      (extraction : EntityExtractionResult)
      (suggestedActions : List SuggestedAction)
      (executedActions : List ExecutedActionEntry)
      (requiresConfirmation : Bool) (confidence : ℚ)
deriving DecidableEq, Repr

/-- The external calls one request makes, as oracle outcomes: the three
completion calls, the clarification-message generation, and the database
client used by `executeActions`. -/
structure ChatOracles where
  classifyCall : Except JsError (CompletionContent ClassParsed)
  extractCall : Except JsError (CompletionContent ExtractParsed)
  clarificationMessage : String
  generateCall : Except JsError (CompletionContent RGenParsed)
  db : DbCall → DbReply

/-- The route's outer catch: an `AIServiceError` maps to
`{ error, code }`, anything else to the generic 500 body. -/
def chatErrorResponse : JsError → ChatResponse
  | .aiService m c => .serverError m (some c)
  | .other _ => .serverError "Internal server error processing AI request" none

/-- The chat route `POST` handler: validate the message, classify, extract,
branch to clarification, otherwise plan, and auto-execute the planned
actions exactly when `response.confidence > 0.8 && !response.requiresConfirmation`. -/
def POST (message : Option String) (o : ChatOracles) : ChatResponse :=
  if ¬ jsTruthyStr message then .badRequest "Message is required and must be a string"
  else
    match classifyIntent o.classifyCall with
    | .error e => chatErrorResponse e
    | .ok classification =>
      match extractEntities o.extractCall classification.intent with
      | .error e => chatErrorResponse e
      | .ok extraction =>
        if classification.requiresClarification ∨ extraction.missingRequiredFields.length > 0 then
          .clarification o.clarificationMessage classification extraction
        else
          match generateResponse o.generateCall with
          | .error e => chatErrorResponse e
          | .ok response =>
            let executedActions : List ExecutedActionEntry :=
              if q08 < response.confidence ∧ response.requiresConfirmation = false then
                executeActions o.db response.actions
              else []
            .response response.message classification extraction response.actions
              executedActions response.requiresConfirmation response.confidence

/-! ## Standalone classifier (`lib/openai.ts`, `classifyIntent`)

A second, parallel pipeline (`lib/openai.ts` + `lib/intent-processor.ts`)
exists next to the `lib/ai` one.  Its `classifyIntent` returns
`JSON.parse(content)` cast to `ProcessedIntent` and catches *every*
error — missing API key, a rejected completion call, empty content and
JSON parse failures alike — returning a fixed fallback intent. -/

/-- The `data` record carried by `ProcessedIntent` / `collectedData`
(`Record<string, unknown>`): the fields the clarification merge reads
and writes. -/
structure CollectedData where
  entity : Option String := none
  type : Option String := none
  name : Option String := none
deriving DecidableEq, Repr

/-- `ProcessedIntent` from `types/conversation.ts`. -/
structure ProcessedIntent where
  action : String
  entity : String
  data : CollectedData
  confidence : ℚ
  needsClarification : Bool
  clarificationQuestions : Option (List String) := none
deriving DecidableEq, Repr

/-- Outcome of the completion call made by `lib/openai.ts`'s
`classifyIntent`: the call threw (no API key, service unavailable, …),
returned falsy content, or returned text whose `JSON.parse` outcome is
`parsed` (`none` = parse threw). -/
inductive LibCompletion where
  | failure
  | empty
  | text (parsed : Option ProcessedIntent)
deriving DecidableEq, Repr

/-- The "safe fallback response" returned by `lib/openai.ts`'s
`classifyIntent` catch block. -/
def libClassifyFallback : ProcessedIntent :=
  { action := "clarify"
    entity := "payee"
    data := {}
    confidence := 0
    needsClarification := true
    clarificationQuestions :=
      some ["I didn't understand that. Could you please rephrase your request?"] }

/-- `lib/openai.ts` `classifyIntent`: every failure mode lands in the
catch and yields the fallback; only successfully parsed content is
returned (uninspected). -/
def libClassifyIntent : LibCompletion → ProcessedIntent
  | .failure => libClassifyFallback
  | .empty => libClassifyFallback
  | .text none => libClassifyFallback
  | .text (some parsed) => parsed

/-! ## Clarification merge (`lib/intent-processor.ts`, `handleClarificationResponse`) -/

/-- ASCII case lowering of one character (the keywords the merge compares
against are all ASCII). -/
def charToLower (c : Char) : Char :=
  if 65 ≤ c.toNat ∧ c.toNat ≤ 90 then Char.ofNat (c.toNat + 32) else c

/-- `userMessage.toLowerCase()`. -/
def strToLower (s : String) : String :=
  String.mk (s.toList.map charToLower)

/-- `pat` occurs as a contiguous sublist of `s`. -/
def listInfix (pat : List Char) : List Char → Bool
  | [] => pat.isEmpty
  | c :: rest => pat.isPrefixOf (c :: rest) || listInfix pat rest

/-- `lowerMessage.includes(pat)`. -/
def strContains (s pat : String) : Bool :=
  listInfix pat.toList s.toList

/-- JS `split(sep)`: splits on every occurrence of the separator, keeping
empty pieces. -/
def splitChar (sep : Char) (cs : List Char) : List (List Char) :=
  cs.foldr
    (fun c acc =>
      match acc with
      | [] => [[c]]
      | h :: t => if c = sep then [] :: h :: t else (c :: h) :: t)
    [[]]

/-- `userMessage.split(' ')`. -/
def jsSplit (s : String) (sep : Char) : List String :=
  (splitChar sep s.toList).map String.mk

/-- The first match of the regex `/"([^"]+)"/` in a string: scans for a
`"` followed by one or more non-quote characters and a closing `"`. -/
def firstQuoted : List Char → Option String
  | [] => none
  | c :: rest =>
    if c = '"' then
      let body := rest.takeWhile (fun ch => ch ≠ '"')
      if body.isEmpty then firstQuoted rest
      else
        match rest.drop body.length with
        | '"' :: _ => some (String.mk body)
        | _ => firstQuoted rest
    else firstQuoted rest

/-- The common-word list excluded by the name-guess heuristic. -/
def nameStopwords : List String :=
  ["the", "and", "for", "with", "want", "add", "create", "new"]

/-- The first block of `handleClarificationResponse`'s merge: keyword-based
entity-kind detection (payee keywords win; otherwise category keywords,
with the income/expense type recorded in the category branch only). -/
def detectEntityKeywords (lowerMessage : String) (collectedData : CollectedData) :
    CollectedData :=
  if strContains lowerMessage "payee" ∨ strContains lowerMessage "vendor" ∨
      strContains lowerMessage "supplier" then
    { collectedData with entity := some "payee" }
  else if strContains lowerMessage "category" ∨ strContains lowerMessage "expense" ∨
      strContains lowerMessage "income" then
    let d := { collectedData with entity := some "category" }
    let d := if strContains lowerMessage "expense" then { d with type := some "expense" } else d
    if strContains lowerMessage "income" then { d with type := some "income" } else d
  else collectedData

/-- The second block of `handleClarificationResponse`'s merge: only when
`updatedData.name` is falsy, try the quoted-string regex, then fall back
to the first word longer than two characters that is not a common word. -/
def guessName (userMessage : String) (updatedData : CollectedData) : CollectedData :=
  if ¬ jsTruthyStr updatedData.name then
    match firstQuoted userMessage.toList with
    | some quoted => { updatedData with name := some quoted }
    | none =>
      let words := (jsSplit userMessage ' ').filter
        (fun word => word.length > 2 ∧ ¬ nameStopwords.contains (strToLower word))
      match words with
      | [] => updatedData
      | w :: _ => { updatedData with name := some w }
  else updatedData

/-- The data-update portion of `handleClarificationResponse` (the merge of
one clarifying answer into `collectedData`): entity/type keyword detection
followed by the name-guessing heuristics. -/
def mergeClarificationData (userMessage : String) (collectedData : CollectedData) :
    CollectedData :=
  guessName userMessage (detectEntityKeywords (strToLower userMessage) collectedData)

/-! ## Shared fixtures and helper lemmas -/

/-- The numeric literal `0.9`, in lowest terms. -/
def q09 : ℚ := Rat.mk' 9 10 (by norm_num) (by norm_num)

/-- The numeric literal `0.99`, in lowest terms. -/
def q099 : ℚ := Rat.mk' 99 100 (by norm_num) (by norm_num)

/-- `q09` denotes nine tenths (in particular it exceeds the `0.8` gate). -/
theorem q09_eq : q09 = 9/10 := by
  unfold q09; rw [Rat.mk'_eq_divInt, Rat.divInt_eq_div]; norm_num

/-- A database client that answers every call with `{ data: null, error: null }`. -/
def sampleDb : DbCall → DbReply := fun _ => .res none none

/-- A well-formed create-payee action. -/
def sampleAction : SuggestedAction :=
  { id := "a1", type := "create", entity := "payee"
    data := [("name", "ABC Corp")], description := "Create payee ABC Corp" }

/-- A parsed classification: `CREATE_PAYEE` at confidence `0.9`, no
clarification requested. -/
def clsParsedW : ClassParsed :=
  { intent := some "CREATE_PAYEE", confidence := some q09, requiresClarification := some false }

/-- A parsed extraction carrying a `name` entity (so `CREATE_PAYEE` has no
missing required fields). -/
def extParsedW : ExtractParsed :=
  { entities := some [{ type := "name", value := "ABC Corp", confidence := q09 }]
    confidence := some q09, ambiguousEntities := some [] }

/-- A parsed planner output proposing `sampleAction` at confidence `0.9`
with no confirmation requested. -/
def rgenParsedW : RGenParsed :=
  { message := some "Creating ABC Corp.", actions := some [sampleAction]
    requiresConfirmation := some false, confidence := some q09 }

/-- Oracles under which the chat route reaches the response branch with
the auto-execution gate open. -/
def gateOpenOracles : ChatOracles :=
  { classifyCall := .ok (.text (some clsParsedW))
    extractCall := .ok (.text (some extParsedW))
    clarificationMessage := "Could you share more details?"
    generateCall := .ok (.text (some rgenParsedW))
    db := sampleDb }

/-- `chatErrorResponse` never produces the `response` shape. -/
theorem chatErrorResponse_ne_response (e : JsError) (msg : String)
    (cls : IntentClassification) (ext : EntityExtractionResult)
    (sug : List SuggestedAction) (exec : List ExecutedActionEntry)
    (rc : Bool) (conf : ℚ) :
    chatErrorResponse e ≠ .response msg cls ext sug exec rc conf := by
  cases e <;> simp [chatErrorResponse]

/-- Inversion for the chat route: a `response`-shaped answer comes from the
planner's successful result, with the executed list produced by the
confidence gate. -/
theorem POST_response_inv (message : Option String) (o : ChatOracles)
    (msg : String) (cls : IntentClassification) (ext : EntityExtractionResult)
    (sug : List SuggestedAction) (exec : List ExecutedActionEntry)
    (rc : Bool) (conf : ℚ)
    (h : POST message o = .response msg cls ext sug exec rc conf) :
    ∃ r : ResponseGenerationResult,
      generateResponse o.generateCall = .ok r ∧
      msg = r.message ∧ sug = r.actions ∧ rc = r.requiresConfirmation ∧
      conf = r.confidence ∧
      exec = (if q08 < r.confidence ∧ r.requiresConfirmation = false then
        executeActions o.db r.actions else []) := by
  unfold POST at h
  split at h
  · exact absurd h (by simp)
  · split at h
    · exact absurd h (chatErrorResponse_ne_response _ _ _ _ _ _ _ _)
    · split at h
      · exact absurd h (chatErrorResponse_ne_response _ _ _ _ _ _ _ _)
      · split at h
        · exact absurd h (by simp)
        · split at h
          · exact absurd h (chatErrorResponse_ne_response _ _ _ _ _ _ _ _)
          · rename_i r hr
            refine ⟨r, hr, ?_⟩
            injection h with h1 h2 h3 h4 h5 h6 h7
            exact ⟨h1.symm, h4.symm, h6.symm, h7.symm, h5.symm⟩

/-! ## Claim theorems -/

/-- C1: for every planner result produced in the chat pipeline, the
proposed actions are auto-executed if and only if the result's confidence
is strictly greater than 0.8 and its `requiresConfirmation` flag is false;
at confidence exactly 0.8 no action is executed, and when the gate is
closed the `executedActions` list in the response is empty. -/
theorem chat_auto_execution_gate (message : Option String) (o : ChatOracles)
    (msg : String) (cls : IntentClassification) (ext : EntityExtractionResult)
    (sug : List SuggestedAction) (exec : List ExecutedActionEntry)
    (rc : Bool) (conf : ℚ)
    (h : POST message o = .response msg cls ext sug exec rc conf) :
    (exec ≠ [] → q08 < conf ∧ rc = false) ∧
    (q08 < conf ∧ rc = false → exec = executeActions o.db sug) ∧
    (¬ (q08 < conf ∧ rc = false) → exec = []) ∧
    (conf = q08 → exec = []) := by
  obtain ⟨r, _, _, hsug, hrc, hconf, hexec⟩ := POST_response_inv message o msg cls ext sug exec rc conf h
  subst hsug hrc hconf hexec
  by_cases hg : q08 < r.confidence ∧ r.requiresConfirmation = false
  · refine ⟨fun _ => hg, fun _ => by rw [if_pos hg], fun hng => absurd hg hng, fun he => ?_⟩
    exact absurd (he ▸ hg.1) (lt_irrefl q08)
  · exact ⟨fun hne => absurd (if_neg hg) hne, fun hg2 => absurd hg2 hg,
      fun _ => if_neg hg, fun _ => if_neg hg⟩

/-- Witness for C1: with the gate open (confidence 0.9, no confirmation
required) under `gateOpenOracles`, the route's executed list is exactly
the executor's output on the suggested batch, and the gate condition
holds. -/
theorem chat_auto_execution_gate_witness :
    (q08 < q09 ∧ false = false) ∧
    executeActions sampleDb [sampleAction] =
      [{ actionId := "a1", type := "create", entity := "payee"
         result := some { success := true } }] :=
  ⟨(chat_auto_execution_gate (some "Add vendor ABC Corp") gateOpenOracles
      "Creating ABC Corp." (parseClassificationResponse (some clsParsedW))
      (parseExtractionResponse (some extParsedW) "CREATE_PAYEE")
      [sampleAction] (executeActions sampleDb [sampleAction]) false q09
      (by decide)).1 (by decide),
   by decide⟩

/-- A database client that throws on deleting the payee `bad-id` and
answers everything else with `{ data: null, error: null }`. -/
def throwDb : DbCall → DbReply := fun c =>
  match c with
  | .delete "payees" (some "bad-id") => .thrown (some "row not found")
  | _ => .res none none

/-- A delete action aimed at the id `throwDb` throws on. -/
def failDeleteAction : SuggestedAction :=
  { id := "a2", type := "delete", entity := "payee"
    data := [("id", "bad-id")], description := "Delete payee bad-id" }

/-- C5: `executeActions` returns exactly one result per action, in input
order, each entry determined by its own action alone; an action whose
dispatch throws gets a `success = false` entry (with the thrown message)
while every other action's entry is unaffected. -/
theorem executeActions_batch (db : DbCall → DbReply) (actions : List SuggestedAction) :
    (executeActions db actions).length = actions.length ∧
    (∀ i : ℕ, (executeActions db actions)[i]? = (actions[i]?).map (executeOne db)) ∧
    (∀ a ∈ actions, ∀ m, dispatchAction db a = .error m →
      executeOne db a =
        { actionId := a.id, type := a.type, entity := a.entity
          result := some { success := false, error := some (m.getD "Unknown error") } }) := by
  refine ⟨List.length_map .., fun i => List.getElem?_map .., fun a _ m hm => ?_⟩
  unfold executeOne
  rw [hm]

/-- Witness for C5: a two-action batch where the second action's database
call throws: two entries come back, in order, the second marked failed
with the thrown message. -/
theorem executeActions_batch_witness :
    (executeActions throwDb [sampleAction, failDeleteAction]).length = 2 ∧
    (executeActions throwDb [sampleAction, failDeleteAction])[1]? =
      some (executeOne throwDb failDeleteAction) ∧
    executeOne throwDb failDeleteAction =
      { actionId := "a2", type := "delete", entity := "payee"
        result := some { success := false, error := some "row not found" } } :=
  ⟨(executeActions_batch throwDb [sampleAction, failDeleteAction]).1,
   ((executeActions_batch throwDb [sampleAction, failDeleteAction]).2.1 1).trans (by decide),
   (executeActions_batch throwDb [sampleAction, failDeleteAction]).2.2
     failDeleteAction (by decide) (some "row not found") rfl⟩

/-- An action with a known type but an entity outside `{payee, category}`. -/
def unknownEntityAction : SuggestedAction :=
  { id := "a3", type := "create", entity := "widget", data := [], description := "" }

/-- Counterexample to C6: for the action `(create, widget)` — a `(type,
entity)` pair outside the known combinations — `executeActions` records an
entry whose `result` is `undefined` (no `success` flag at all), not the
`success = false / "Unknown action type"` payload the claim requires. -/
theorem executor_unknown_entity_counterexample :
    executeActions sampleDb [unknownEntityAction] =
      [{ actionId := "a3", type := "create", entity := "widget", result := none }] ∧
    (executeOne sampleDb unknownEntityAction).result = none ∧
    (executeOne sampleDb unknownEntityAction).result ≠
      some { success := false, error := some "Unknown action type" } := by
  decide

/-- C6 (amended): an action whose *type* is outside
`{create, update, delete, read}` gets the `success = false /
"Unknown action type"` result; but an action with a known type and an
entity outside `{payee, category}` gets an entry whose `result` field is
undefined (no success flag). -/
theorem executor_unknown_type_amended :
    (∀ (db : DbCall → DbReply) (a : SuggestedAction),
      a.type ∉ (["create", "update", "delete", "read"] : List String) →
      executeOne db a =
        { actionId := a.id, type := a.type, entity := a.entity
          result := some { success := false, error := some "Unknown action type" } }) ∧
    (∀ (db : DbCall → DbReply) (a : SuggestedAction),
      a.type ∈ (["create", "update", "delete", "read"] : List String) →
      a.entity ∉ (["payee", "category"] : List String) →
      (executeOne db a).result = none) := by
  constructor
  · intro db a ha
    simp only [List.mem_cons, List.not_mem_nil, or_false, not_or] at ha
    obtain ⟨h1, h2, h3, h4⟩ := ha
    unfold executeOne dispatchAction
    simp [h1, h2, h3, h4]
  · intro db a ha he
    simp only [List.mem_cons, List.not_mem_nil, or_false, not_or] at he
    obtain ⟨e1, e2⟩ := he
    simp only [List.mem_cons, List.not_mem_nil, or_false] at ha
    unfold executeOne dispatchAction
    rcases ha with h | h | h | h <;> simp [h, e1, e2]

/-- Witness for C6 (amended): the unknown type `noop` produces the
"Unknown action type" failure entry, while `(create, widget)` produces an
entry with no result payload. -/
theorem executor_unknown_type_amended_witness :
    executeOne sampleDb
        { id := "a4", type := "noop", entity := "payee", data := [], description := "" } =
      { actionId := "a4", type := "noop", entity := "payee"
        result := some { success := false, error := some "Unknown action type" } } ∧
    (executeOne sampleDb unknownEntityAction).result = none :=
  ⟨executor_unknown_type_amended.1 sampleDb
      { id := "a4", type := "noop", entity := "payee", data := [], description := "" }
      (by decide),
   executor_unknown_type_amended.2 sampleDb unknownEntityAction (by decide) (by decide)⟩

/-- A delete action as it can appear in a parsed planner output. -/
def deleteAction : SuggestedAction :=
  { id := "d1", type := "delete", entity := "payee"
    data := [("id", "123")], description := "Delete payee 123" }

/-- A parsed planner output proposing a delete at confidence 0.99 with
`requiresConfirmation: false`. -/
def deleteParsedW : RGenParsed :=
  { message := some "Deleting ABC Corp.", actions := some [deleteAction]
    requiresConfirmation := some false, confidence := some q099 }

/-- Counterexample to C2: a parsed planner output containing a delete
action and `requiresConfirmation: false` yields a planner result whose
action list contains the delete but whose `requiresConfirmation` flag is
false, even at confidence 0.99. -/
theorem planner_delete_confirmation_counterexample :
    (parseResponseGeneration (some deleteParsedW)).actions = [deleteAction] ∧
    deleteAction.type = "delete" ∧
    (parseResponseGeneration (some deleteParsedW)).requiresConfirmation = false ∧
    (parseResponseGeneration (some deleteParsedW)).confidence = q099 := by
  decide

/-- C2 (amended): the planner result's `requiresConfirmation` flag is taken
verbatim from the parsed model output (defaulting to false when the key is
absent) regardless of the action list — confirmation for delete/update
actions is only requested through the prompt text, not enforced by the
parser; the only structural guarantee is that the parse-failure fallback
forces `requiresConfirmation = true`. -/
theorem planner_confirmation_passthrough :
    ((parseResponseGeneration none).requiresConfirmation = true) ∧
    (∀ p : RGenParsed, p.requiresConfirmation = none →
      (parseResponseGeneration (some p)).requiresConfirmation = false) ∧
    (∀ (p : RGenParsed) (b : Bool), p.requiresConfirmation = some b →
      (parseResponseGeneration (some p)).requiresConfirmation = b) := by
  refine ⟨rfl, fun p hp => ?_, fun p b hp => ?_⟩ <;>
    simp [parseResponseGeneration, jsOrBool, hp]

/-- Witness for C2 (amended): applied to `deleteParsedW`, whose
`requiresConfirmation` key is `false`. -/
theorem planner_confirmation_passthrough_witness :
    (parseResponseGeneration (some deleteParsedW)).requiresConfirmation = false :=
  planner_confirmation_passthrough.2.2 deleteParsedW false rfl

/-- Counterexample to C3: the completion content `{}` — valid JSON missing
every required key — makes `classifyIntent` return a classification with
`requiresClarification = false` and no clarification question, not the
claimed `requiresClarification = true` fallback. -/
theorem classifier_missing_keys_counterexample :
    classifyIntent (.ok (.text (some {}))) =
      .ok { intent := "UNKNOWN", confidence := 0, entities := []
            requiresClarification := false, clarificationQuestions := []
            rawResponse := some {} } ∧
    (parseClassificationResponse (some {})).requiresClarification ≠ true := by
  decide

/-- C3 (amended): when the completion output contains no parseable JSON
object, `classifyIntent` returns exactly the
`{UNKNOWN, 0, [], requiresClarification: true}` fallback with the single
generic please-rephrase question; and for every content that did yield
text (parseable or not), the parse step never produces a hard failure:
`classifyIntent` returns a classification, never an error. -/
theorem classifier_fail_soft_amended :
    (classifyIntent (.ok (.text none)) =
      .ok { intent := "UNKNOWN", confidence := 0, entities := []
            requiresClarification := true
            clarificationQuestions := ["I need more information to understand your request."]
            rawResponse := none }) ∧
    (∀ parsed : Option ClassParsed, ∃ c : IntentClassification,
      classifyIntent (.ok (.text parsed)) = .ok c) := by
  exact ⟨by decide, fun parsed => ⟨parseClassificationResponse parsed, rfl⟩⟩

/-- Counterexample to C4: in the `lib/openai.ts` pipeline, a failed
completion call (service unavailable) is silently converted into a
low-confidence clarify classification — `classifyIntent` returns the
fallback intent (confidence 0, `needsClarification: true`) instead of
surfacing any error. -/
theorem lib_classify_swallows_service_error :
    libClassifyIntent .failure =
      { action := "clarify", entity := "payee", data := {}, confidence := 0
        needsClarification := true
        clarificationQuestions :=
          some ["I didn't understand that. Could you please rephrase your request?"] } := by
  decide

/-- C4 (amended): the `lib/ai` classifier surfaces every failure of the
completion call as an `AIServiceError` carrying a code; but the standalone
`classifyIntent` in `lib/openai.ts` converts every failure — including the
completion call being unavailable — into the fallback clarify
classification with confidence 0, surfacing nothing. -/
theorem classify_error_surfacing_amended :
    (∀ e : JsError, ∃ m c : String,
      classifyIntent (.error e) = .error (.aiService m c)) ∧
    (libClassifyIntent .failure = libClassifyFallback ∧
      libClassifyFallback.action = "clarify" ∧
      libClassifyFallback.confidence = 0 ∧
      libClassifyFallback.needsClarification = true) := by
  refine ⟨fun e => ?_, rfl, rfl, by decide, rfl⟩
  cases e with
  | aiService m c => exact ⟨m, c, rfl⟩
  | other m => exact ⟨"Failed to classify intent", "CLASSIFICATION_ERROR", rfl⟩

/-- C7: for every intent and every parsed extraction output,
`missingRequiredFields` is exactly the intent's required-field table entry
minus the set of `type` values present among the returned entities —
presence judged by entity type only, so an entity of type `name` with an
empty-string value still counts as present. -/
theorem extraction_required_fields :
    (getRequiredFieldsForIntent "CREATE_PAYEE" = ["name"] ∧
     getRequiredFieldsForIntent "CREATE_CATEGORY" = ["name"] ∧
     getRequiredFieldsForIntent "UPDATE_PAYEE" = ["name", "id"] ∧
     getRequiredFieldsForIntent "UPDATE_CATEGORY" = ["name", "id"] ∧
     getRequiredFieldsForIntent "DELETE_PAYEE" = ["name", "id"] ∧
     getRequiredFieldsForIntent "DELETE_CATEGORY" = ["name", "id"] ∧
     getRequiredFieldsForIntent "READ_PAYEE" = [] ∧
     getRequiredFieldsForIntent "READ_CATEGORY" = [] ∧
     getRequiredFieldsForIntent "CLARIFY" = [] ∧
     getRequiredFieldsForIntent "HELP" = [] ∧
     getRequiredFieldsForIntent "UNKNOWN" = []) ∧
    (∀ (p : ExtractParsed) (intent f : String),
      f ∈ (parseExtractionResponse (some p) intent).missingRequiredFields ↔
        (f ∈ getRequiredFieldsForIntent intent ∧
          ∀ e ∈ (parseExtractionResponse (some p) intent).entities, e.type ≠ f)) ∧
    ((parseExtractionResponse
        (some { entities := some [{ type := "name", value := "", confidence := q09 }] })
        "CREATE_PAYEE").missingRequiredFields = []) := by
  refine ⟨⟨rfl, rfl, rfl, rfl, rfl, rfl, rfl, rfl, rfl, rfl, rfl⟩, ?_, by decide⟩
  intro p intent f
  have hx : jsOrList (p.entities.map (fun es => es.map (fun e => e.type))) [] =
      (jsOrList p.entities []).map (fun e => e.type) := by
    cases p.entities <;> rfl
  simp [parseExtractionResponse, List.mem_filter, hx, List.elem_iff, List.contains,
    List.mem_map, not_exists, not_and, decide_eq_true_eq]

/-- Oracles identical to `gateOpenOracles` except that the planner
completion contains no parseable JSON. -/
def fallbackOracles : ChatOracles :=
  { gateOpenOracles with generateCall := .ok (.text none) }

/-- Counterexample to C8: the planner completion content `{}` — valid JSON
that is not the expected structured shape — makes `generateResponse`
return field defaults (`requiresConfirmation: false`, confidence 0.5),
not the claimed `{generic, [], true, 0.1}` fallback. -/
theorem planner_fallback_counterexample :
    generateResponse (.ok (.text (some {}))) =
      .ok { message := "I understand your request.", actions := []
            requiresConfirmation := false, confidence := q05 } ∧
    generateResponse (.ok (.text (some {}))) ≠
      .ok { message := "I understand your request, but I need to process it further."
            actions := [], requiresConfirmation := true, confidence := q01 } := by
  decide

/-- C8 (amended): when the planner completion contains no parseable JSON,
`generateResponse` falls back to exactly
`{generic need-more-processing, [], requiresConfirmation: true, confidence: 0.1}`;
when JSON parses but keys are missing, the per-key defaults
`{…, [], false, 0.5}` apply; in either case the auto-execution gate
(`confidence > 0.8 && !requiresConfirmation`) cannot fire, and any chat
request whose planner content fails to parse produces an empty
`executedActions` list. -/
theorem planner_fallback_gate_amended :
    (parseResponseGeneration none =
      { message := "I understand your request, but I need to process it further."
        actions := [], requiresConfirmation := true, confidence := q01 }) ∧
    (parseResponseGeneration (some {}) =
      { message := "I understand your request.", actions := []
        requiresConfirmation := false, confidence := q05 }) ∧
    (¬ (q08 < (parseResponseGeneration none).confidence ∧
        (parseResponseGeneration none).requiresConfirmation = false)) ∧
    (¬ (q08 < (parseResponseGeneration (some {})).confidence ∧
        (parseResponseGeneration (some {})).requiresConfirmation = false)) ∧
    (∀ (message : Option String) (o : ChatOracles) (msg : String)
        (cls : IntentClassification) (ext : EntityExtractionResult)
        (sug : List SuggestedAction) (exec : List ExecutedActionEntry)
        (rc : Bool) (conf : ℚ),
      o.generateCall = .ok (.text none) →
      POST message o = .response msg cls ext sug exec rc conf →
      exec = []) := by
  refine ⟨by decide, by decide, by decide, by decide, ?_⟩
  intro message o msg cls ext sug exec rc conf hgen h
  obtain ⟨r, hr, _, _, _, _, hexec⟩ :=
    POST_response_inv message o msg cls ext sug exec rc conf h
  rw [hgen] at hr
  have hr2 : Except.ok (α := ResponseGenerationResult) (ε := JsError)
      (parseResponseGeneration none) = .ok r := hr
  injection hr2 with hr3
  rw [hexec, ← hr3, if_neg (by decide)]

/-- Witness for C8 (amended): under `fallbackOracles` — whose planner
content has no JSON — the chat route reaches the response branch and
executes nothing. -/
theorem planner_fallback_gate_amended_witness :
    fallbackOracles.generateCall = .ok (.text none) ∧
    ([] : List ExecutedActionEntry) = [] :=
  ⟨rfl,
   planner_fallback_gate_amended.2.2.2.2 (some "hello") fallbackOracles
     "I understand your request, but I need to process it further."
     (parseClassificationResponse (some clsParsedW))
     (parseExtractionResponse (some extParsedW) "CREATE_PAYEE")
     [] [] true q01 rfl (by decide)⟩

/-- The name-guess phase never touches the `entity` slot. -/
theorem guessName_entity (m : String) (u : CollectedData) :
    (guessName m u).entity = u.entity := by
  unfold guessName
  split
  · split
    · rfl
    · simp only []
      split <;> rfl
  · rfl

/-- The name-guess phase never touches the `type` slot. -/
theorem guessName_type (m : String) (u : CollectedData) :
    (guessName m u).type = u.type := by
  unfold guessName
  split
  · split
    · rfl
    · simp only []
      split <;> rfl
  · rfl

/-- When the name slot is already truthy, the name-guess phase is skipped
entirely. -/
theorem guessName_of_truthy (m : String) (u : CollectedData)
    (h : jsTruthyStr u.name = true) : guessName m u = u := by
  simp [guessName, h]

/-- The keyword-detection phase never touches the `name` slot. -/
theorem detectEntityKeywords_name (l : String) (d : CollectedData) :
    (detectEntityKeywords l d).name = d.name := by
  unfold detectEntityKeywords
  split
  · rfl
  · split
    · split <;> split <;> rfl
    · rfl

/-- Counterexample to C9: the answer `"category income"` — containing both
the entity-kind keyword `category` and the type keyword `income` — does
record both slots, but also consumes the keyword `category` itself as the
candidate name; and the answer `"payee income"` records the entity kind
without recording the type at all. -/
theorem clarification_merge_counterexample :
    mergeClarificationData "category income" {} =
      { entity := some "category", type := some "income", name := some "category" } ∧
    mergeClarificationData "payee income" {} =
      { entity := some "payee", type := none, name := some "payee" } := by
  decide

/-- C9 (amended): when a payee keyword is present, only
`entity := "payee"` is recorded and type keywords are ignored; when no
payee keyword is present, an income (resp. expense) keyword records
`entity := "category"` together with the matching type; and entity-kind
detection does not shield the name heuristics — the common-word list does
not contain the entity-kind keywords, so `category` itself can be consumed
as the candidate name. -/
theorem clarification_merge_amended :
    (∀ (msg : String) (d : CollectedData),
      (strContains (strToLower msg) "payee" ∨ strContains (strToLower msg) "vendor" ∨
        strContains (strToLower msg) "supplier") →
      (mergeClarificationData msg d).entity = some "payee" ∧
      (mergeClarificationData msg d).type = d.type) ∧
    (∀ (msg : String) (d : CollectedData),
      ¬ (strContains (strToLower msg) "payee" ∨ strContains (strToLower msg) "vendor" ∨
        strContains (strToLower msg) "supplier") →
      strContains (strToLower msg) "income" →
      (mergeClarificationData msg d).entity = some "category" ∧
      (mergeClarificationData msg d).type = some "income") ∧
    (∀ (msg : String) (d : CollectedData),
      ¬ (strContains (strToLower msg) "payee" ∨ strContains (strToLower msg) "vendor" ∨
        strContains (strToLower msg) "supplier") →
      ¬ strContains (strToLower msg) "income" →
      strContains (strToLower msg) "expense" →
      (mergeClarificationData msg d).entity = some "category" ∧
      (mergeClarificationData msg d).type = some "expense") ∧
    ((mergeClarificationData "category income" {}).name = some "category") := by
  refine ⟨fun msg d hp => ?_, fun msg d hnp hin => ?_, fun msg d hnp hni hex => ?_, by decide⟩
  · have h1 : detectEntityKeywords (strToLower msg) d = { d with entity := some "payee" } := by
      unfold detectEntityKeywords
      rw [if_pos hp]
    constructor
    · rw [mergeClarificationData, guessName_entity, h1]
    · rw [mergeClarificationData, guessName_type, h1]
  · have h1 : detectEntityKeywords (strToLower msg) d =
        { d with entity := some "category", type := some "income" } := by
      unfold detectEntityKeywords
      rw [if_neg hnp, if_pos (Or.inr (Or.inr hin))]
      by_cases hex : strContains (strToLower msg) "expense" = true <;> simp [hex, hin]
    constructor
    · rw [mergeClarificationData, guessName_entity, h1]
    · rw [mergeClarificationData, guessName_type, h1]
  · have h1 : detectEntityKeywords (strToLower msg) d =
        { d with entity := some "category", type := some "expense" } := by
      unfold detectEntityKeywords
      rw [if_neg hnp, if_pos (Or.inr (Or.inl hex))]
      simp [hex, hni]
    constructor
    · rw [mergeClarificationData, guessName_entity, h1]
    · rw [mergeClarificationData, guessName_type, h1]

/-- Witness for C9 (amended): a payee-keyword answer records only the
entity kind; an income answer with no payee keyword records both
entity kind and type. -/
theorem clarification_merge_amended_witness :
    ((mergeClarificationData "the payee" {}).entity = some "payee" ∧
      (mergeClarificationData "the payee" {}).type = ({} : CollectedData).type) ∧
    ((mergeClarificationData "income please" {}).entity = some "category" ∧
      (mergeClarificationData "income please" {}).type = some "income") :=
  ⟨clarification_merge_amended.1 "the payee" {} (by decide),
   clarification_merge_amended.2.1 "income please" {} (by decide) (by decide)⟩

/-- C10: across clarification turns the `collectedData.name` slot is
write-once — once it holds a truthy value, merging a further answer leaves
it unchanged (no quoted-string extraction, no first-word heuristic) —
whereas the `entity` and `type` slots can be overwritten by a later
answer. -/
theorem clarification_name_write_once :
    (∀ (msg : String) (d : CollectedData), jsTruthyStr d.name = true →
      (mergeClarificationData msg d).name = d.name) ∧
    mergeClarificationData "category income"
        { entity := some "payee", type := some "expense", name := some "Acme" } =
      { entity := some "category", type := some "income", name := some "Acme" } := by
  constructor
  · intro msg d h
    have hd : jsTruthyStr (detectEntityKeywords (strToLower msg) d).name = true := by
      rw [detectEntityKeywords_name]; exact h
    rw [mergeClarificationData, guessName_of_truthy _ _ hd, detectEntityKeywords_name]
  · decide

/-- Witness for C10: a quoted candidate name in the answer does not
overwrite an already-collected name. -/
theorem clarification_name_write_once_witness :
    jsTruthyStr (some "Acme") = true ∧
    (mergeClarificationData "use \"NewCo\" please"
        { entity := none, type := none, name := some "Acme" }).name = some "Acme" :=
  ⟨by decide,
   clarification_name_write_once.1 "use \"NewCo\" please"
     { entity := none, type := none, name := some "Acme" } (by decide)⟩

end AiPanel
